import Mathlib

/-!
Shallow embedding of the LightBnB data-access layer
(`src/LightBnB_WebApp-master/db/database.js`).

The source file contains three concatenated revisions of `database.js`:
* revision A (lines 1–158): SQL-backed user functions with
  `{error, message}` catch handlers, full `getAllReservations`, a plain
  (filter-less) `getAllProperties`, in-memory `addProperty`;
* revision B (lines 159–268): early draft whose catch handlers return the
  raw `err` value, `getUserWithId` commented out, in-memory `addUser`;
* revision C (lines 269–483): final revision — same user functions as A,
  full `getAllReservations`, and the filter-building `getAllProperties`.

Database rows are modelled as Lean structures, the database as lists of
rows, and `pool.query` fallibility as an explicit `fault : Option String`
oracle: `some e` means the statement fails with error `e` (connectivity
loss, constraint violation, …) and the JS `.catch` branch runs; `none`
means the statement reaches the engine, where it can still fail if the
assembled SQL text itself is malformed.
-/

/-- The value a data-access promise resolves to: a success payload, an
`{error, message}` descriptor (revision A/C catch handlers), or the raw
error value (revision B catch handlers return `err` itself). -/
inductive DbResult (α : Type) where
  | value (v : α)
  | errorDescriptor (error : String) (message : String)
  | rawError (error : String)
deriving Repr, DecidableEq

/-- Does a resolved value have the structured `{error, message}` shape? -/
def DbResult.isErrorDescriptor {α : Type} : DbResult α → Bool
  | .errorDescriptor _ _ => true
  | _ => false

/-- Does a resolved value carry a caught fault (structured or raw)?  Used to
state that faults are caught and resolved rather than escaping. -/
def DbResult.isCaughtFault {α : Type} : DbResult α → Bool
  | .errorDescriptor _ _ => true
  | .rawError _ => true
  | .value _ => false

/-- A row of the `users` table. -/
structure User where
  id : Nat
  name : String
  email : String
  password : String
deriving Repr, DecidableEq

/-- A row of the `properties` table (fields the queries touch). -/
structure Property where
  id : Nat
  owner_id : Nat
  city : String
  cost_per_night : Nat
deriving Repr, DecidableEq

/-- A row of the `reservations` table (fields the queries touch);
`start_date` as a day number. -/
structure Reservation where
  id : Nat
  guest_id : Nat
  property_id : Nat
  start_date : Nat
deriving Repr, DecidableEq

/-- A row of the `property_reviews` table (fields the queries touch). -/
structure Review where
  id : Nat
  property_id : Nat
  rating : Nat
deriving Repr, DecidableEq

/-- The relational store the pool executes against.  `nextUserId` models the
serial sequence backing `users.id`. -/
structure DB where
  users : List User
  properties : List Property
  reservations : List Reservation
  property_reviews : List Review
  nextUserId : Nat
deriving Repr, DecidableEq

/-- Row set of `select * from users where email = $1`. -/
def usersWithEmail (db : DB) (email : String) : List User :=
  db.users.filter (fun u => u.email == email)

/-- Row set of `select * from users where id = $1`. -/
def usersWithId (db : DB) (id : Nat) : List User :=
  db.users.filter (fun u => u.id == id)

/-- `getUserWithEmail` (revisions A and C, lines 22–34 / 290–302):
queries `select * from users where email = $1`; `.then` returns
`rows.length ? rows[0] : null`; `.catch` returns the
`{error, message}` descriptor. -/
def getUserWithEmail (db : DB) (fault : Option String) (email : String) :
    DbResult (Option User) :=
  match fault with
  | some err =>
      .errorDescriptor err "An error occurred while fetching the user with email."
  | none =>
      match usersWithEmail db email with
      | [] => .value none
      | u :: _ => .value (some u)

/-- `getUserWithEmail` (revision B, lines 181–189): same query and `.then`,
but the `.catch` handler returns the raw `err` value. -/
def getUserWithEmailV2 (db : DB) (fault : Option String) (email : String) :
    DbResult (Option User) :=
  match fault with
  | some err => .rawError err
  | none =>
      match usersWithEmail db email with
      | [] => .value none
      | u :: _ => .value (some u)

/-- `getUserWithId` (revisions A and C, lines 41–53 / 309–321):
queries `select * from users where id = $1`; `.then` returns
`rows.length ? rows[0] : null`; `.catch` returns the descriptor. -/
def getUserWithId (db : DB) (fault : Option String) (id : Nat) :
    DbResult (Option User) :=
  match fault with
  | some err =>
      .errorDescriptor err "An error occurred while fetching the user with id."
  | none =>
      match usersWithId db id with
      | [] => .value none
      | u :: _ => .value (some u)

/-- The argument object of `addUser`. -/
structure UserInput where
  name : String
  email : String
  password : String
deriving Repr, DecidableEq

/-- The `pg` result object a query resolves with; modelled by its `rows`
field, which is what the sibling functions project out. -/
structure PgResult (α : Type) where
  rows : List α
deriving Repr, DecidableEq

/-- `insert into users (name, email, password) values ($1, $2, $3)
returning *` on a successful execution: the engine assigns the next serial
id and appends the row; `returning *` yields the inserted row. -/
def insertUser (db : DB) (user : UserInput) : User × DB :=
  let row : User :=
    { id := db.nextUserId, name := user.name, email := user.email,
      password := user.password }
  (row, { db with users := db.users ++ [row], nextUserId := db.nextUserId + 1 })

/-- `addUser` (revisions A and C, lines 60–77 / 328–345): runs the insert
and — unlike its siblings — resolves with the whole `pg` result object
(`.then((result) => result)`), not `result.rows[0]`.  Returns the resolved
value together with the store state after the statement. -/
def addUser (db : DB) (fault : Option String) (user : UserInput) :
    DbResult (PgResult User) × DB :=
  match fault with
  | some err =>
      (.errorDescriptor err "An error occurred while adding the user.", db)
  | none =>
      let (row, db') := insertUser db user
      (.value { rows := [row] }, db')

/-- Does `pat` match at the head of `s`? -/
def matchesFront : List Char → List Char → Bool
  | [], _ => true
  | _ :: _, [] => false
  | a :: as, b :: bs => a == b && matchesFront as bs

/-- Does `pat` occur as a contiguous run anywhere in `s`? -/
def occursIn (pat : List Char) : List Char → Bool
  | [] => matchesFront pat []
  | c :: t => matchesFront pat (c :: t) || occursIn pat t

/-- JS `haystack.includes(needle)`. -/
def strIncludes (haystack needle : String) : Bool :=
  occursIn needle.data haystack.data

/-- Number of positions of `s` at which `pat` matches (occurrence count). -/
def countOcc (pat : List Char) : List Char → Nat
  | [] => 0
  | c :: t => (if matchesFront pat (c :: t) then 1 else 0) + countOcc pat t

/-- Occurrence count of `needle` in `haystack`. -/
def countOccStr (haystack needle : String) : Nat :=
  countOcc needle.data haystack.data

/-- The `options` object accepted by `getAllProperties` (revision C).  Each
field is absent (`none`) or present with a JS number / string value. -/
structure QueryOptions where
  owner_id : Option Nat := none
  city : Option String := none
  minimum_price_per_night : Option Nat := none
  maximum_price_per_night : Option Nat := none
  minimum_rating : Option Nat := none
deriving Repr, DecidableEq

/-- JS truthiness of an optional number field (`0` and absence are falsy). -/
def truthyNat : Option Nat → Bool
  | none => false
  | some n => n != 0

/-- JS truthiness of an optional string field (`""` and absence are falsy). -/
def truthyStr : Option String → Bool
  | none => false
  | some s => s != ""

/-- A value pushed onto `queryParams`. -/
inductive Param where
  | nat (n : Nat)
  | str (s : String)
deriving Repr, DecidableEq

/-- The query text and parameter list `getAllProperties` (revision C,
lines 394–452) assembles: a sequence of conditional appends, where the
minimum/maximum price branches probe the accumulated string for the
substring `"WHERE"` to pick `AND` vs `WHERE`, and the final block probes
for `"GROUP BY"`.  Placeholder indices read `queryParams.length` after the
push, as the source does. -/
def buildQuery (options : QueryOptions) (limit : Nat) : String × List Param :=
  let qp0 : List Param := []
  let qs0 := "\n  SELECT properties.*, avg(property_reviews.rating) as average_rating\n  FROM properties\n  JOIN property_reviews ON properties.id = property_id\n  "
  let qp1 := if truthyNat options.owner_id then
      qp0 ++ [Param.nat (options.owner_id.getD 0)] else qp0
  let qs1 := if truthyNat options.owner_id then
      qs0 ++ "JOIN users ON $" ++ toString qp1.length ++ " = properties.owner_id"
    else qs0
  let qp2 := if truthyStr options.city then
      qp1 ++ [Param.str ("%" ++ options.city.getD "" ++ "%")] else qp1
  let qs2 := if truthyStr options.city then
      qs1 ++ "WHERE city LIKE $" ++ toString qp2.length ++ " " else qs1
  let qp3 := if truthyNat options.minimum_price_per_night then
      qp2 ++ [Param.nat (options.minimum_price_per_night.getD 0 * 100)] else qp2
  let qs3 := if truthyNat options.minimum_price_per_night then
      (if strIncludes qs2 "WHERE" then
        qs2 ++ "AND cost_per_night >= $" ++ toString qp3.length
      else
        qs2 ++ "WHERE cost_per_night >= $" ++ toString qp3.length)
    else qs2
  let qp4 := if truthyNat options.maximum_price_per_night then
      qp3 ++ [Param.nat (options.maximum_price_per_night.getD 0 * 100)] else qp3
  let qs4 := if truthyNat options.maximum_price_per_night then
      (if strIncludes qs3 "WHERE" then
        qs3 ++ "AND cost_per_night <= $" ++ toString qp4.length
      else
        qs3 ++ "WHERE cost_per_night <= $" ++ toString qp4.length)
    else qs3
  let qp5 := if truthyNat options.minimum_rating then
      qp4 ++ [Param.nat (options.minimum_rating.getD 0)] else qp4
  let qs5 := if truthyNat options.minimum_rating then
      qs4 ++ "\n    GROUP BY properties.id\n    HAVING avg(property_reviews.rating) >= $" ++ toString qp5.length
    else qs4
  let qp6 := qp5 ++ [Param.nat limit]
  let qs6 := if strIncludes qs5 "GROUP BY" then
      qs5 ++ "\n    ORDER BY cost_per_night\n  LIMIT $" ++ toString qp6.length ++ ";"
    else
      qs5 ++ "\n    GROUP BY properties.id\n    ORDER BY cost_per_night\n    LIMIT $" ++ toString qp6.length ++ ";\n    "
  (qs6, qp6)

/-- `buildQuery` with the truthiness tests and the field values abstracted
into parameters: `buildQuery o limit` is definitionally
`buildQueryGeneric (truthyNat o.owner_id) … (o.minimum_rating.getD 0) limit`.
Lets the per-combination analysis of the assembled text proceed by cases on
five booleans. -/
def buildQueryGeneric (t1 t2 t3 t4 t5 : Bool) (vO : Nat) (vC : String)
    (vMin vMax vRate : Nat) (limit : Nat) : String × List Param :=
  let qp0 : List Param := []
  let qs0 := "\n  SELECT properties.*, avg(property_reviews.rating) as average_rating\n  FROM properties\n  JOIN property_reviews ON properties.id = property_id\n  "
  let qp1 := if t1 then qp0 ++ [Param.nat vO] else qp0
  let qs1 := if t1 then
      qs0 ++ "JOIN users ON $" ++ toString qp1.length ++ " = properties.owner_id"
    else qs0
  let qp2 := if t2 then qp1 ++ [Param.str ("%" ++ vC ++ "%")] else qp1
  let qs2 := if t2 then
      qs1 ++ "WHERE city LIKE $" ++ toString qp2.length ++ " " else qs1
  let qp3 := if t3 then qp2 ++ [Param.nat (vMin * 100)] else qp2
  let qs3 := if t3 then
      (if strIncludes qs2 "WHERE" then
        qs2 ++ "AND cost_per_night >= $" ++ toString qp3.length
      else
        qs2 ++ "WHERE cost_per_night >= $" ++ toString qp3.length)
    else qs2
  let qp4 := if t4 then qp3 ++ [Param.nat (vMax * 100)] else qp3
  let qs4 := if t4 then
      (if strIncludes qs3 "WHERE" then
        qs3 ++ "AND cost_per_night <= $" ++ toString qp4.length
      else
        qs3 ++ "WHERE cost_per_night <= $" ++ toString qp4.length)
    else qs3
  let qp5 := if t5 then qp4 ++ [Param.nat vRate] else qp4
  let qs5 := if t5 then
      qs4 ++ "\n    GROUP BY properties.id\n    HAVING avg(property_reviews.rating) >= $" ++ toString qp5.length
    else qs4
  let qp6 := qp5 ++ [Param.nat limit]
  let qs6 := if strIncludes qs5 "GROUP BY" then
      qs5 ++ "\n    ORDER BY cost_per_night\n  LIMIT $" ++ toString qp6.length ++ ";"
    else
      qs5 ++ "\n    GROUP BY properties.id\n    ORDER BY cost_per_night\n    LIMIT $" ++ toString qp6.length ++ ";\n    "
  (qs6, qp6)

/-- Review rows joined to property `pid` by
`JOIN property_reviews ON properties.id = property_id`. -/
def reviewsOf (db : DB) (pid : Nat) : List Review :=
  db.property_reviews.filter (fun r => r.property_id == pid)

/-- `avg(property_reviews.rating)` over a group of review rows. -/
def avgRating (rs : List Review) : Rat :=
  (rs.map (fun r => (r.rating : Rat))).sum / (rs.length : Rat)

/-- Is the assembled `getAllProperties` query text rejected by the engine?
The `JOIN users ON $n = properties.owner_id` append ends without trailing
whitespace, so a following `WHERE …` clause fuses into the unknown column
name `owner_idWHERE` and the statement fails.  (The `$nAND` fusion produced
by adjacent price bounds still lexes as `$n` followed by `AND`, since a
parameter token is `$` plus digits, so it does not abort the statement.) -/
def sqlMalformed (o : QueryOptions) : Bool :=
  truthyNat o.owner_id &&
    (truthyStr o.city || truthyNat o.minimum_price_per_night ||
      truthyNat o.maximum_price_per_night)

/-- Does joined row-group of property `p` survive the FROM/JOIN/WHERE part
of the assembled query?  The base join requires at least one review row;
`JOIN users ON $n = properties.owner_id` keeps a row per user, each
requiring `p.owner_id` to equal the parameter (so an empty `users` table
eliminates everything); `city LIKE '%c%'` is a substring match; the price
parameters were pushed already multiplied by 100. -/
def propertyRowKeep (db : DB) (o : QueryOptions) (p : Property) : Bool :=
  (reviewsOf db p.id).length != 0 &&
  (!truthyNat o.owner_id ||
    (db.users.length != 0 && p.owner_id == o.owner_id.getD 0)) &&
  (!truthyStr o.city || strIncludes p.city (o.city.getD "")) &&
  (!truthyNat o.minimum_price_per_night ||
    decide (o.minimum_price_per_night.getD 0 * 100 ≤ p.cost_per_night)) &&
  (!truthyNat o.maximum_price_per_night ||
    decide (p.cost_per_night ≤ o.maximum_price_per_night.getD 0 * 100))

/-- `HAVING avg(property_reviews.rating) >= $n`, emitted only when
`minimum_rating` is truthy.  The duplication of review rows introduced by
the extra `users` join leaves the average unchanged, so the group average
is the average over `reviewsOf`. -/
def havingKeep (db : DB) (o : QueryOptions) (p : Property) : Bool :=
  !truthyNat o.minimum_rating ||
    decide ((o.minimum_rating.getD 0 : Rat) ≤ avgRating (reviewsOf db p.id))

/-- An output row of revision C's `getAllProperties`: `properties.*` plus
the computed `average_rating` aggregate. -/
structure Listing where
  property : Property
  average_rating : Rat
deriving Repr, DecidableEq

/-- `ORDER BY cost_per_night`: the sort key of the property listing. -/
def costLe (a b : Property) : Prop := a.cost_per_night ≤ b.cost_per_night

instance : DecidableRel costLe :=
  fun a b => Nat.decLe a.cost_per_night b.cost_per_night

instance : IsTotal Property costLe :=
  ⟨fun a b => Nat.le_total a.cost_per_night b.cost_per_night⟩

instance : IsTrans Property costLe :=
  ⟨fun _ _ _ hab hbc => Nat.le_trans hab hbc⟩

/-- `ORDER BY start_date`: the sort key of the reservation rows. -/
def startDateLe (a b : Reservation × Property) : Prop :=
  a.1.start_date ≤ b.1.start_date

instance : DecidableRel startDateLe :=
  fun a b => Nat.decLe a.1.start_date b.1.start_date

instance : IsTotal (Reservation × Property) startDateLe :=
  ⟨fun a b => Nat.le_total a.1.start_date b.1.start_date⟩

instance : IsTrans (Reservation × Property) startDateLe :=
  ⟨fun _ _ _ hab hbc => Nat.le_trans hab hbc⟩

/-- `getAllProperties` (revision C, lines 394–463): executes the assembled
query.  Row semantics: group per surviving property (`GROUP BY
properties.id`), `HAVING` filter, `ORDER BY cost_per_night`,
`LIMIT $n`; `.then((res) => res.rows)`; `.catch` returns the
`{error, message}` descriptor — which also fires when the assembled text
itself is malformed (`sqlMalformed`). -/
def getAllProperties (db : DB) (fault : Option String) (options : QueryOptions)
    (limit : Nat) : DbResult (List Listing) :=
  match fault with
  | some err =>
      .errorDescriptor err "An error occurred while fetching the properties."
  | none =>
      if sqlMalformed options then
        .errorDescriptor "column properties.owner_idWHERE does not exist"
          "An error occurred while fetching the properties."
      else
        let kept := db.properties.filter
          (fun p => propertyRowKeep db options p && havingKeep db options p)
        let sorted := kept.insertionSort costLe
        .value ((sorted.take limit).map
          (fun p => { property := p, average_rating := avgRating (reviewsOf db p.id) }))

/-- `getAllProperties` (revision A, lines 125–137): plain
`select * from properties limit $1` (options ignored, no ordering clause,
no aggregate); rows come back in table order. -/
def getAllPropertiesV1 (db : DB) (fault : Option String) (_options : QueryOptions)
    (limit : Nat) : DbResult (List Property) :=
  match fault with
  | some err =>
      .errorDescriptor err "An error occurred while fetching the properties."
  | none => .value (db.properties.take limit)

/-- Row-groups of revision A/C's `getAllReservations` query before ordering:
one `(reservation, property)` pair per reservation of the guest whose
property exists and has at least one review row (the
`join property_reviews` requirement; `group by properties.id,
reservations.id` collapses the per-review duplication). -/
def reservationRows (db : DB) (guest_id : Nat) : List (Reservation × Property) :=
  (db.reservations.filter (fun r => r.guest_id == guest_id)).flatMap
    (fun r => (db.properties.filter
        (fun p => p.id == r.property_id && (reviewsOf db p.id).length != 0)).map
      (fun p => (r, p)))

/-- `getAllReservations` (revisions A and C, lines 86–115 / 354–383):
`select properties.* from reservations join properties … join
property_reviews … where reservations.guest_id = $1 group by properties.id,
reservations.id order by start_date limit $2`. -/
def getAllReservations (db : DB) (fault : Option String) (guest_id : Nat)
    (limit : Nat) : DbResult (List Property) :=
  match fault with
  | some err =>
      .errorDescriptor err "An error occurred while fetching the reservations of user."
  | none =>
      let sorted := (reservationRows db guest_id).insertionSort startDateLe
      .value ((sorted.take limit).map (fun rp => rp.2))

/-- JS object property assignment `obj[k] = v` on a numeric-keyed object
modelled as an association list: replace the entry when the key exists,
otherwise append. -/
def objSet (m : List (Nat × Property)) (k : Nat) (v : Property) :
    List (Nat × Property) :=
  if m.any (fun kv => kv.1 == k) then
    m.map (fun kv => if kv.1 == k then (k, v) else kv)
  else m ++ [(k, v)]

/-- JS object property read `obj[k]`. -/
def objGet (m : List (Nat × Property)) (k : Nat) : Option Property :=
  (m.find? (fun kv => kv.1 == k)).map (fun kv => kv.2)

/-- `addProperty` (revisions A and C, lines 144–149 / 470–475): the
in-memory variant.  `Object.keys(properties).length + 1` is the new id, the
object is stored under that key, and `Promise.resolve(property)` resolves
with the (mutated) object — this path never produces an error value.
Returns the resolved record together with the updated mapping. -/
def addProperty (props : List (Nat × Property)) (property : Property) :
    Property × List (Nat × Property) :=
  let propertyId := props.length + 1
  let property' := { property with id := propertyId }
  (property', objSet props propertyId property')

/-- Sample store: one user, two reviewed properties (costs 300 and 500
cents, stored out of cost order), no reservations. -/
def sampleDb : DB :=
  { users := [⟨1, "Ana", "ana@x.com", "p"⟩]
    properties := [⟨2, 1, "Toronto", 500⟩, ⟨1, 1, "Vancouver", 300⟩]
    reservations := []
    property_reviews := [⟨1, 1, 4⟩, ⟨2, 2, 5⟩]
    nextUserId := 2 }

/-- Sample store for the reservation query: guest 7 holds two reservations
on reviewed properties, with start dates out of id order. -/
def sampleResDb : DB :=
  { users := [⟨1, "Ana", "ana@x.com", "p"⟩]
    properties := [⟨1, 1, "Vancouver", 300⟩, ⟨2, 1, "Toronto", 500⟩]
    reservations := [⟨1, 7, 2, 20⟩, ⟨2, 7, 1, 10⟩]
    property_reviews := [⟨1, 1, 4⟩, ⟨2, 2, 5⟩]
    nextUserId := 2 }

/-- Store holding a property owned by user 1 that has no reviews. -/
def reviewlessDb : DB :=
  { users := [⟨1, "Ana", "ana@x.com", "p"⟩]
    properties := [⟨1, 1, "Vancouver", 300⟩]
    reservations := []
    property_reviews := []
    nextUserId := 2 }

/-- The empty store whose user-id sequence starts at 1. -/
def emptyDb : DB := ⟨[], [], [], [], 1⟩

/-- The `addUser` argument of the spec's concrete scenario. -/
def anaInput : UserInput := ⟨"Ana", "ana@x.com", "p"⟩

/-- The user row the scenario's insert creates. -/
def anaRow : User := ⟨1, "Ana", "ana@x.com", "p"⟩

/-- Options whose five filter fields are all present but falsy. -/
def allFalsyOptions : QueryOptions :=
  { owner_id := some 0, city := some "", minimum_price_per_night := some 0,
    maximum_price_per_night := some 0, minimum_rating := some 0 }

/-- The listing rows `getAllProperties` produces on `sampleDb` with no
filters: both properties, in cost order, with their review averages
(property 1 averages 4, property 2 averages 5). -/
def sampleListings : List Listing :=
  [⟨⟨1, 1, "Vancouver", 300⟩, avgRating (reviewsOf sampleDb 1)⟩,
   ⟨⟨2, 1, "Toronto", 500⟩, avgRating (reviewsOf sampleDb 2)⟩]

/-- `buildQuery` is `buildQueryGeneric` applied to the truthiness tests and
(defaulted) field values of the options object. -/
theorem buildQuery_eq_generic (o : QueryOptions) (limit : Nat) :
    buildQuery o limit =
      buildQueryGeneric (truthyNat o.owner_id) (truthyStr o.city)
        (truthyNat o.minimum_price_per_night) (truthyNat o.maximum_price_per_night)
        (truthyNat o.minimum_rating) (o.owner_id.getD 0) (o.city.getD "")
        (o.minimum_price_per_night.getD 0) (o.maximum_price_per_night.getD 0)
        (o.minimum_rating.getD 0) limit := rfl

/-- `find?` after the replacing branch of `objSet`: the first entry keyed
`k` has been replaced by `(k, v)`, so the lookup yields `(k, v)` exactly
when some entry matched. -/
theorem find_in_replaced (m : List (Nat × Property)) (k : Nat) (v : Property) :
    (m.map (fun kv => if kv.1 == k then (k, v) else kv)).find?
        (fun kv => kv.1 == k) =
      if m.any (fun kv => kv.1 == k) then some (k, v) else none := by
  induction m with
  | nil => rfl
  | cons a t ih =>
    simp only [List.map_cons, List.any_cons]
    by_cases h : a.1 = k
    · rw [if_pos (by simp [h]), List.find?_cons_of_pos _ (by simp)]
      simp [h]
    · rw [if_neg (by simp [h]), List.find?_cons_of_neg _ (by simp [h]), ih]
      have hb : (a.1 == k) = false := by simp [h]
      simp only [hb, Bool.false_or]

/-- Reading back the key just written by `objSet` yields the written value. -/
theorem objGet_objSet (m : List (Nat × Property)) (k : Nat) (v : Property) :
    objGet (objSet m k v) k = some v := by
  unfold objGet objSet
  by_cases h : m.any (fun kv => kv.1 == k)
  · rw [if_pos h, find_in_replaced, if_pos h]
    rfl
  · rw [if_neg h]
    have hnone : m.find? (fun kv => kv.1 == k) = none := by
      rw [List.find?_eq_none]
      intro x hx
      intro hbe
      exact h (List.any_eq_true.mpr ⟨x, hx, hbe⟩)
    simp [hnone]

/-- C1 (amended): every data-access operation catches query faults at the
function boundary and resolves to a value — in revisions A and C to the
`{error, message}` descriptor carrying the fault (including the intrinsic
fault raised when `getAllProperties` assembles a malformed statement),
while revision B's `getUserWithEmail` (lines 181–189) resolves the caught
fault to the raw error value instead of the structured descriptor. -/
theorem C1_amended_fault_resolution (db : DB) (e email : String)
    (id gid limit : Nat) (user : UserInput) (o : QueryOptions) :
    getUserWithEmail db (some e) email =
      .errorDescriptor e "An error occurred while fetching the user with email." ∧
    getUserWithId db (some e) id =
      .errorDescriptor e "An error occurred while fetching the user with id." ∧
    (addUser db (some e) user).1 =
      .errorDescriptor e "An error occurred while adding the user." ∧
    getAllReservations db (some e) gid limit =
      .errorDescriptor e "An error occurred while fetching the reservations of user." ∧
    getAllProperties db (some e) o limit =
      .errorDescriptor e "An error occurred while fetching the properties." ∧
    (sqlMalformed o = true →
      getAllProperties db none o limit =
        .errorDescriptor "column properties.owner_idWHERE does not exist"
          "An error occurred while fetching the properties.") ∧
    getUserWithEmailV2 db (some e) email = .rawError e :=
  ⟨rfl, rfl, rfl, rfl, rfl, fun h => by simp [getAllProperties, h], rfl⟩

/-- C1 (witness): the amended theorem applied at a concrete store, fault
and option set whose assembled statement is malformed. -/
theorem C1_amended_witness :
    sqlMalformed { owner_id := some 1, city := some "Van" } = true ∧
    getAllProperties emptyDb none { owner_id := some 1, city := some "Van" } 10 =
      .errorDescriptor "column properties.owner_idWHERE does not exist"
        "An error occurred while fetching the properties." :=
  ⟨by decide,
   (C1_amended_fault_resolution emptyDb "boom" "a@b.c" 1 1 10 anaInput
      { owner_id := some 1, city := some "Van" }).2.2.2.2.2.1 (by decide)⟩

/-- C1 (counterexample): revision B's `getUserWithEmail` resolves a query
fault to the raw error value, which is not the structured
`{error, message}` descriptor the claim requires of every operation. -/
theorem C1_counterexample :
    getUserWithEmailV2 emptyDb (some "connection terminated") "ana@x.com" =
      .rawError "connection terminated" ∧
    DbResult.isErrorDescriptor
      (getUserWithEmailV2 emptyDb (some "connection terminated") "ana@x.com") =
      false :=
  ⟨rfl, rfl⟩

/-- C2: when the query succeeds and no user row matches, the lookups
resolve to the null value; when exactly one row matches, they resolve to
that row. -/
theorem C2_lookup_null_or_row (db : DB) (email : String) (id : Nat) :
    (usersWithEmail db email = [] →
      getUserWithEmail db none email = .value none) ∧
    (∀ u, usersWithEmail db email = [u] →
      getUserWithEmail db none email = .value (some u)) ∧
    (usersWithId db id = [] → getUserWithId db none id = .value none) ∧
    (∀ u, usersWithId db id = [u] →
      getUserWithId db none id = .value (some u)) := by
  refine ⟨fun h => ?_, fun u h => ?_, fun h => ?_, fun u h => ?_⟩ <;>
    simp [getUserWithEmail, getUserWithId, h]

/-- C2 (witness): the lookups evaluated on a concrete store, at a matching
email and id and at a missing email and id. -/
theorem C2_witness :
    getUserWithEmail sampleDb none "ana@x.com" =
      .value (some ⟨1, "Ana", "ana@x.com", "p"⟩) ∧
    getUserWithEmail sampleDb none "bob@x.com" = .value none ∧
    getUserWithId sampleDb none 1 = .value (some ⟨1, "Ana", "ana@x.com", "p"⟩) ∧
    getUserWithId sampleDb none 9 = .value none :=
  ⟨(C2_lookup_null_or_row sampleDb "ana@x.com" 1).2.1 _ (by decide),
   (C2_lookup_null_or_row sampleDb "bob@x.com" 1).1 (by decide),
   (C2_lookup_null_or_row sampleDb "x" 1).2.2.2 _ (by decide),
   (C2_lookup_null_or_row sampleDb "x" 9).2.2.1 (by decide)⟩

/-- C3: at the spec's concrete scenario, the insert succeeds and assigns
id 1, yet `addUser` resolves to the whole `pg` result object
`{rows: [record]}` — not the user record itself — while `getUserWithId`
at the assigned id resolves to the record, so the two resolved values
differ. -/
theorem C3_addUser_wrapped_result :
    (addUser emptyDb none anaInput).1 = .value { rows := [anaRow] } ∧
    getUserWithId (addUser emptyDb none anaInput).2 none anaRow.id =
      .value (some anaRow) :=
  ⟨rfl, rfl⟩

/-- C9: the in-memory `addProperty` assigns id `keys.length + 1`, returns
the record with that id, and stores that record in the mapping under the
id. -/
theorem C9_addProperty_sequential_id (props : List (Nat × Property))
    (property : Property) :
    (addProperty props property).1 = { property with id := props.length + 1 } ∧
    (addProperty props property).1.id = props.length + 1 ∧
    objGet (addProperty props property).2 (props.length + 1) =
      some (addProperty props property).1 :=
  ⟨rfl, rfl, objGet_objSet props (props.length + 1) _⟩

/-- Inversion of a successful `getAllProperties` run: the fault oracle was
empty, the assembled text was not malformed, and the rows are the
filter/sort/limit/aggregate pipeline of the query. -/
theorem getAllProperties_value_inv (db : DB) (fault : Option String)
    (o : QueryOptions) (limit : Nat) (rows : List Listing)
    (h : getAllProperties db fault o limit = .value rows) :
    fault = none ∧ sqlMalformed o = false ∧
    rows = (((db.properties.filter
        (fun p => propertyRowKeep db o p && havingKeep db o p)).insertionSort
          costLe).take limit).map
      (fun p => { property := p, average_rating := avgRating (reviewsOf db p.id) }) := by
  match fault with
  | some e => simp [getAllProperties] at h
  | none =>
    unfold getAllProperties at h
    by_cases hm : sqlMalformed o = true
    · simp [hm] at h
    · have hm' : sqlMalformed o = false := by
        cases hq : sqlMalformed o
        · rfl
        · exact absurd hq hm
      rw [hm'] at h
      simp only [Bool.false_eq_true, if_false, DbResult.value.injEq] at h
      exact ⟨rfl, hm', h.symm⟩

/-- C4 (amended): for every options object and limit, a successful run of
the filter-building `getAllProperties` (revision C) returns at most `limit`
records, ordered non-decreasing by `cost_per_night`, each carrying the
average rating aggregated from its reviews; a successful run of the plain
revision-A variant returns at most `limit` records, with no ordering or
aggregation guarantee. -/
theorem C4_amended_limit_order_rating :
    (∀ (db : DB) (fault : Option String) (o : QueryOptions) (limit : Nat)
      (rows : List Listing),
      getAllProperties db fault o limit = .value rows →
      rows.length ≤ limit ∧
      rows.Pairwise
        (fun a b => a.property.cost_per_night ≤ b.property.cost_per_night) ∧
      ∀ x ∈ rows, x.average_rating = avgRating (reviewsOf db x.property.id)) ∧
    (∀ (db : DB) (fault : Option String) (o : QueryOptions) (limit : Nat)
      (rows : List Property),
      getAllPropertiesV1 db fault o limit = .value rows →
      rows.length ≤ limit) := by
  constructor
  · intro db fault o limit rows h
    obtain ⟨-, -, hrows⟩ := getAllProperties_value_inv db fault o limit rows h
    subst hrows
    refine ⟨?_, ?_, ?_⟩
    · rw [List.length_map]
      exact List.length_take_le _ _
    · have hs := List.sorted_insertionSort costLe
        (db.properties.filter (fun p => propertyRowKeep db o p && havingKeep db o p))
      have htake : ((db.properties.filter
          (fun p => propertyRowKeep db o p && havingKeep db o p)).insertionSort
            costLe).take limit |>.Pairwise costLe :=
        hs.sublist (List.take_sublist limit _)
      rw [List.pairwise_map]
      exact htake.imp (fun hab => hab)
    · intro x hx
      obtain ⟨p, -, rfl⟩ := List.mem_map.mp hx
      rfl
  · intro db fault o limit rows h
    match fault with
    | some e => simp [getAllPropertiesV1] at h
    | none =>
      simp only [getAllPropertiesV1, DbResult.value.injEq] at h
      subst h
      exact List.length_take_le _ _

/-- C4 (witness): the amended theorem applied to a concrete store whose
table order is not cost order: revision C sorts and aggregates. -/
theorem C4_witness :
    getAllProperties sampleDb none { } 10 = .value sampleListings ∧
    (sampleListings.length ≤ 10 ∧
      sampleListings.Pairwise
        (fun a b => a.property.cost_per_night ≤ b.property.cost_per_night) ∧
      ∀ x ∈ sampleListings, x.average_rating = avgRating (reviewsOf sampleDb x.property.id)) :=
  ⟨rfl, C4_amended_limit_order_rating.1 sampleDb none { } 10 sampleListings rfl⟩

/-- C4 (counterexample): the revision-A `getAllProperties` succeeds on a
store whose table order is not cost order and returns the rows unsorted
(and without any rating aggregate), refuting the claim for that cited
variant. -/
theorem C4_counterexample :
    getAllPropertiesV1 sampleDb none { } 10 =
      .value [⟨2, 1, "Toronto", 500⟩, ⟨1, 1, "Vancouver", 300⟩] ∧
    ¬ ([⟨2, 1, "Toronto", 500⟩, (⟨1, 1, "Vancouver", 300⟩ : Property)].Pairwise
        (fun a b => a.cost_per_night ≤ b.cost_per_night)) :=
  ⟨by decide, by decide⟩

/-- Every listing of a successful `getAllProperties` pipeline comes from a
stored property that passed the row filter and the `HAVING` filter. -/
theorem mem_rows_keep (db : DB) (o : QueryOptions) (limit : Nat) (x : Listing)
    (hx : x ∈ (((db.properties.filter
        (fun p => propertyRowKeep db o p && havingKeep db o p)).insertionSort
          costLe).take limit).map
      (fun p => { property := p, average_rating := avgRating (reviewsOf db p.id) })) :
    x.property ∈ db.properties ∧ propertyRowKeep db o x.property = true ∧
      havingKeep db o x.property = true := by
  obtain ⟨p, hp, rfl⟩ := List.mem_map.mp hx
  have hp1 := List.mem_of_mem_take hp
  rw [List.mem_insertionSort] at hp1
  obtain ⟨hmem, hcond⟩ := List.mem_filter.mp hp1
  rw [Bool.and_eq_true] at hcond
  exact ⟨hmem, hcond.1, hcond.2⟩

/-- C6: on a successful `getAllProperties` run with a truthy minimum
(resp. maximum) price, every returned record's stored `cost_per_night` is
at least (resp. at most) the bound multiplied by exactly 100. -/
theorem C6_price_bounds_times_100 (db : DB) (fault : Option String)
    (o : QueryOptions) (limit : Nat) (rows : List Listing)
    (h : getAllProperties db fault o limit = .value rows) :
    (truthyNat o.minimum_price_per_night = true →
      ∀ x ∈ rows,
        o.minimum_price_per_night.getD 0 * 100 ≤ x.property.cost_per_night) ∧
    (truthyNat o.maximum_price_per_night = true →
      ∀ x ∈ rows,
        x.property.cost_per_night ≤ o.maximum_price_per_night.getD 0 * 100) := by
  obtain ⟨-, -, hrows⟩ := getAllProperties_value_inv db fault o limit rows h
  subst hrows
  constructor
  · intro htr x hx
    obtain ⟨-, hkeep, -⟩ := mem_rows_keep db o limit x hx
    unfold propertyRowKeep at hkeep
    simp only [Bool.and_eq_true] at hkeep
    obtain ⟨⟨⟨⟨-, -⟩, -⟩, h4⟩, -⟩ := hkeep
    rw [htr] at h4
    simpa using h4
  · intro htr x hx
    obtain ⟨-, hkeep, -⟩ := mem_rows_keep db o limit x hx
    unfold propertyRowKeep at hkeep
    simp only [Bool.and_eq_true] at hkeep
    obtain ⟨⟨⟨⟨-, -⟩, -⟩, -⟩, h5⟩ := hkeep
    rw [htr] at h5
    simpa using h5

/-- C6 (witness): bounds 3 and 5 (major units) admit exactly the stored
costs in `[300, 500]` cents on the sample store. -/
theorem C6_witness :
    getAllProperties sampleDb none
      { minimum_price_per_night := some 3, maximum_price_per_night := some 5 }
      10 = .value sampleListings ∧
    (∀ x ∈ sampleListings, 3 * 100 ≤ x.property.cost_per_night) ∧
    (∀ x ∈ sampleListings, x.property.cost_per_night ≤ 5 * 100) :=
  ⟨rfl,
   (C6_price_bounds_times_100 sampleDb none
      { minimum_price_per_night := some 3, maximum_price_per_night := some 5 }
      10 sampleListings rfl).1 (by decide),
   (C6_price_bounds_times_100 sampleDb none
      { minimum_price_per_night := some 3, maximum_price_per_night := some 5 }
      10 sampleListings rfl).2 (by decide)⟩

/-- C7 (amended): on a successful `getAllProperties` run with a truthy
`owner_id` filter, every returned record's owner column equals the given
owner id, and — when the stored property ids are distinct — no property
appears twice.  (Completeness fails: see the counterexample, where an
owned but review-less property is absent from the result.) -/
theorem C7_amended_owner_filter_sound (db : DB) (fault : Option String)
    (o : QueryOptions) (limit : Nat) (rows : List Listing)
    (hown : truthyNat o.owner_id = true)
    (h : getAllProperties db fault o limit = .value rows)
    (hnodup : (db.properties.map Property.id).Nodup) :
    (∀ x ∈ rows, x.property.owner_id = o.owner_id.getD 0) ∧
    (rows.map (fun x => x.property.id)).Nodup := by
  obtain ⟨-, -, hrows⟩ := getAllProperties_value_inv db fault o limit rows h
  subst hrows
  constructor
  · intro x hx
    obtain ⟨-, hkeep, -⟩ := mem_rows_keep db o limit x hx
    unfold propertyRowKeep at hkeep
    simp only [Bool.and_eq_true] at hkeep
    obtain ⟨⟨⟨⟨-, h2⟩, -⟩, -⟩, -⟩ := hkeep
    rw [hown] at h2
    simp only [Bool.not_true, Bool.false_or, Bool.and_eq_true, beq_iff_eq] at h2
    exact h2.2
  · rw [List.map_map]
    have hperm : List.Perm
        (((db.properties.filter
          (fun p => propertyRowKeep db o p && havingKeep db o p)).insertionSort
            costLe).map Property.id)
        ((db.properties.filter
          (fun p => propertyRowKeep db o p && havingKeep db o p)).map Property.id) :=
      (List.perm_insertionSort costLe _).map _
    have hsub : ((db.properties.filter
          (fun p => propertyRowKeep db o p && havingKeep db o p)).map
            Property.id).Sublist (db.properties.map Property.id) :=
      (List.filter_sublist _).map _
    have h1 := List.Nodup.sublist hsub hnodup
    have h2 := hperm.nodup_iff.mpr h1
    have h3 : ((((db.properties.filter
          (fun p => propertyRowKeep db o p && havingKeep db o p)).insertionSort
            costLe).take limit).map Property.id).Sublist
        (((db.properties.filter
          (fun p => propertyRowKeep db o p && havingKeep db o p)).insertionSort
            costLe).map Property.id) :=
      (List.take_sublist _ _).map _
    exact List.Nodup.sublist h3 h2

/-- C7 (counterexample): user 1 owns the single stored property, yet a
successful owner-filtered run returns no records, because the property has
no reviews and the base join discards it — refuting "returns exactly the
properties whose owner column equals the given owner_id". -/
theorem C7_counterexample :
    getAllProperties reviewlessDb none { owner_id := some 1 } 10 = .value [] ∧
    reviewlessDb.properties.filter (fun p => p.owner_id == 1) =
      [⟨1, 1, "Vancouver", 300⟩] :=
  ⟨rfl, rfl⟩

/-- C7 (witness): the amended soundness theorem applied to a concrete
owner-filtered run that returns both of the owner's reviewed properties. -/
theorem C7_witness :
    getAllProperties sampleDb none { owner_id := some 1 } 10 =
      .value sampleListings ∧
    ((∀ x ∈ sampleListings, x.property.owner_id = 1) ∧
      (sampleListings.map (fun x => x.property.id)).Nodup) :=
  ⟨rfl,
   C7_amended_owner_filter_sound sampleDb none { owner_id := some 1 } 10
     sampleListings (by decide) rfl (by decide)⟩

/-- C8: a successful `getAllReservations` run returns at most `limit`
property rows, one per reservation of the guest on a reviewed property,
ordered ascending by the reservation's start date; review-less properties
never appear, and a guest with no reservations gets the empty list, not an
error. -/
theorem C8_reservations_contract (db : DB) (fault : Option String)
    (guest_id limit : Nat) (rows : List Property)
    (h : getAllReservations db fault guest_id limit = .value rows) :
    rows.length ≤ limit ∧
    (∃ rps : List (Reservation × Property),
      rows = rps.map Prod.snd ∧
      rps.Pairwise startDateLe ∧
      ∀ x ∈ rps, x.1 ∈ db.reservations ∧ x.1.guest_id = guest_id ∧
        x.2 ∈ db.properties ∧ x.2.id = x.1.property_id ∧
        (reviewsOf db x.2.id).length ≠ 0) ∧
    ((∀ r ∈ db.reservations, r.guest_id ≠ guest_id) → rows = []) := by
  match fault with
  | some e => simp [getAllReservations] at h
  | none =>
    simp only [getAllReservations, DbResult.value.injEq] at h
    subst h
    refine ⟨?_,
      ⟨((reservationRows db guest_id).insertionSort startDateLe).take limit,
        rfl, ?_, ?_⟩, ?_⟩
    · rw [List.length_map]
      exact List.length_take_le _ _
    · exact (List.sorted_insertionSort startDateLe _).sublist
        (List.take_sublist _ _)
    · intro x hx
      have hx1 := List.mem_of_mem_take hx
      rw [List.mem_insertionSort] at hx1
      unfold reservationRows at hx1
      obtain ⟨r, hr, hx3⟩ := List.mem_flatMap.mp hx1
      obtain ⟨p, hp, rfl⟩ := List.mem_map.mp hx3
      obtain ⟨hrmem, hrg⟩ := List.mem_filter.mp hr
      obtain ⟨hpmem, hpcond⟩ := List.mem_filter.mp hp
      simp only [Bool.and_eq_true, beq_iff_eq, bne_iff_ne, ne_eq] at hrg hpcond
      exact ⟨hrmem, hrg, hpmem, hpcond.1, hpcond.2⟩
    · intro hno
      have hfil : db.reservations.filter (fun r => r.guest_id == guest_id) = [] := by
        rw [List.filter_eq_nil_iff]
        intro a ha
        simp [hno a ha]
      unfold reservationRows
      rw [hfil]
      simp

/-- C8 (witness): guest 7's two reservations come back as their properties
in start-date order on the sample store; `limit` is respected. -/
theorem C8_witness :
    getAllReservations sampleResDb none 7 10 =
      .value [⟨1, 1, "Vancouver", 300⟩, ⟨2, 1, "Toronto", 500⟩] ∧
    getAllReservations sampleResDb none 9 10 = .value [] ∧
    ([(⟨1, 1, "Vancouver", 300⟩ : Property), ⟨2, 1, "Toronto", 500⟩]).length ≤ 10 :=
  ⟨by decide, by decide,
   (C8_reservations_contract sampleResDb none 7 10
      [⟨1, 1, "Vancouver", 300⟩, ⟨2, 1, "Toronto", 500⟩] (by decide)).1⟩


set_option maxRecDepth 1000000

set_option maxHeartbeats 8000000

/-- The text component of the assembled query does not depend on the
pushed parameter values (they only enter the parameter list); placeholder
indices depend only on how many values were pushed. -/
theorem bqg_fst_value_irrel (t1 t2 t3 t4 t5 : Bool) (vO : Nat) (vC : String)
    (vm vx vr limit : Nat) :
    (buildQueryGeneric t1 t2 t3 t4 t5 vO vC vm vx vr limit).1 =
    (buildQueryGeneric t1 t2 t3 t4 t5 0 "" 0 0 0 0).1 := by
  cases t1 <;> cases t2 <;> cases t3 <;> cases t4 <;> cases t5 <;>
    simp [buildQueryGeneric]

/-- `WHERE` occurs in the assembled text exactly once when at least one of
the city/min/max conditions is present, never otherwise. -/
theorem shape_count_where : ∀ t1 t2 t3 t4 t5 : Bool,
    countOccStr (buildQueryGeneric t1 t2 t3 t4 t5 0 "" 0 0 0 0).1 "WHERE" =
      min ((if t2 then 1 else 0) + (if t3 then 1 else 0) +
        (if t4 then 1 else 0)) 1 := by decide

/-- `AND` occurs in the assembled text exactly once per condition after
the first. -/
theorem shape_count_and : ∀ t1 t2 t3 t4 t5 : Bool,
    countOccStr (buildQueryGeneric t1 t2 t3 t4 t5 0 "" 0 0 0 0).1 "AND" =
      ((if t2 then 1 else 0) + (if t3 then 1 else 0) +
        (if t4 then 1 else 0)) - 1 := by decide

/-- Away from the fusing combinations, every `WHERE` is preceded by
whitespace: the space-prefixed count matches the raw count. -/
theorem shape_count_space_where : ∀ t1 t2 t3 t4 t5 : Bool,
    (t1 = false || (t2 || t3 || t4) = false) = true →
    (t3 && t4) = false →
    countOccStr (buildQueryGeneric t1 t2 t3 t4 t5 0 "" 0 0 0 0).1 " WHERE" =
      min ((if t2 then 1 else 0) + (if t3 then 1 else 0) +
        (if t4 then 1 else 0)) 1 := by decide

/-- Away from the fusing combinations, every `AND` is preceded by
whitespace: the space-prefixed count matches the raw count. -/
theorem shape_count_space_and : ∀ t1 t2 t3 t4 t5 : Bool,
    (t1 = false || (t2 || t3 || t4) = false) = true →
    (t3 && t4) = false →
    countOccStr (buildQueryGeneric t1 t2 t3 t4 t5 0 "" 0 0 0 0).1 " AND" =
      ((if t2 then 1 else 0) + (if t3 then 1 else 0) +
        (if t4 then 1 else 0)) - 1 := by decide

/-- The fused identifier `owner_idWHERE` appears in the assembled text
exactly when `owner_id` is combined with a condition clause. -/
theorem shape_fused : ∀ t1 t2 t3 t4 t5 : Bool,
    strIncludes (buildQueryGeneric t1 t2 t3 t4 t5 0 "" 0 0 0 0).1
      "owner_idWHERE" = (t1 && (t2 || t3 || t4)) := by decide

/-- The semantic `sqlMalformed` test agrees with the presence of the fused
identifier `owner_idWHERE` in the text `buildQuery` assembles. -/
theorem sqlMalformed_iff_fused (o : QueryOptions) (limit : Nat) :
    sqlMalformed o = strIncludes (buildQuery o limit).1 "owner_idWHERE" := by
  rw [buildQuery_eq_generic, bqg_fst_value_irrel]
  exact (shape_fused (truthyNat o.owner_id) (truthyStr o.city)
    (truthyNat o.minimum_price_per_night) (truthyNat o.maximum_price_per_night)
    (truthyNat o.minimum_rating)).symm

/-- C5 (amended): the assembled text always contains exactly one `WHERE`
substring when at least one of the city/price conditions is present (none
otherwise) and one `AND` substring per additional condition — the clauses
are chained conjunctively with a single `WHERE` introducing the chain.
The keywords are properly delimited (each preceded by whitespace) only
when `owner_id` does not accompany a condition clause and the two price
bounds are not both present; in the excluded combinations a keyword fuses
onto the preceding fragment (see the counterexample). -/
theorem C5_amended_where_and_chaining (o : QueryOptions) (limit : Nat) :
    countOccStr (buildQuery o limit).1 "WHERE" =
      min ((if truthyStr o.city then 1 else 0) +
        (if truthyNat o.minimum_price_per_night then 1 else 0) +
        (if truthyNat o.maximum_price_per_night then 1 else 0)) 1 ∧
    countOccStr (buildQuery o limit).1 "AND" =
      ((if truthyStr o.city then 1 else 0) +
        (if truthyNat o.minimum_price_per_night then 1 else 0) +
        (if truthyNat o.maximum_price_per_night then 1 else 0)) - 1 ∧
    ((truthyNat o.owner_id = false ||
        (truthyStr o.city || truthyNat o.minimum_price_per_night ||
          truthyNat o.maximum_price_per_night) = false) = true →
      (truthyNat o.minimum_price_per_night &&
        truthyNat o.maximum_price_per_night) = false →
      countOccStr (buildQuery o limit).1 " WHERE" =
        min ((if truthyStr o.city then 1 else 0) +
          (if truthyNat o.minimum_price_per_night then 1 else 0) +
          (if truthyNat o.maximum_price_per_night then 1 else 0)) 1 ∧
      countOccStr (buildQuery o limit).1 " AND" =
        ((if truthyStr o.city then 1 else 0) +
          (if truthyNat o.minimum_price_per_night then 1 else 0) +
          (if truthyNat o.maximum_price_per_night then 1 else 0)) - 1) := by
  rw [buildQuery_eq_generic, bqg_fst_value_irrel]
  refine ⟨shape_count_where _ _ _ _ _, shape_count_and _ _ _ _ _,
    fun hx hy => ⟨shape_count_space_where _ _ _ _ _ hx hy,
      shape_count_space_and _ _ _ _ _ hx hy⟩⟩

/-- C5 (counterexample): with `owner_id` and a minimum price present, the
assembled text contains the fused identifier `owner_idWHERE`: its sole
`WHERE` is glued to the preceding join fragment instead of standing as a
whitespace-delimited keyword introducing the first condition, so the
claimed well-formed chaining fails for this filter combination. -/
theorem C5_counterexample :
    strIncludes
      (buildQuery { owner_id := some 1, minimum_price_per_night := some 10 }
        10).1 "owner_idWHERE" = true ∧
    countOccStr
      (buildQuery { owner_id := some 1, minimum_price_per_night := some 10 }
        10).1 "WHERE" = 1 ∧
    countOccStr
      (buildQuery { owner_id := some 1, minimum_price_per_night := some 10 }
        10).1 " WHERE" = 0 := by
  refine ⟨?_, ?_, ?_⟩ <;> decide

/-- C5 (witness): the amended theorem applied to the combination
city + minimum price: one `WHERE`, one `AND`, both delimited. -/
theorem C5_witness :
    countOccStr
      (buildQuery { city := some "Van", minimum_price_per_night := some 2 }
        10).1 "WHERE" = 1 ∧
    countOccStr
      (buildQuery { city := some "Van", minimum_price_per_night := some 2 }
        10).1 "AND" = 1 ∧
    countOccStr
      (buildQuery { city := some "Van", minimum_price_per_night := some 2 }
        10).1 " WHERE" = 1 ∧
    countOccStr
      (buildQuery { city := some "Van", minimum_price_per_night := some 2 }
        10).1 " AND" = 1 :=
  have h := C5_amended_where_and_chaining
    { city := some "Van", minimum_price_per_night := some 2 } 10
  ⟨h.1, h.2.1, (h.2.2 rfl rfl).1, (h.2.2 rfl rfl).2⟩

/-- C10: a filter field that is present but falsy (`0` or the empty
string) contributes no clause and no parameter — the assembled query is
identical to the one with the field absent. -/
theorem C10_falsy_filters_ignored (o : QueryOptions) (limit : Nat) :
    (o.owner_id = some 0 →
      buildQuery o limit = buildQuery { o with owner_id := none } limit) ∧
    (o.city = some "" →
      buildQuery o limit = buildQuery { o with city := none } limit) ∧
    (o.minimum_price_per_night = some 0 →
      buildQuery o limit =
        buildQuery { o with minimum_price_per_night := none } limit) ∧
    (o.maximum_price_per_night = some 0 →
      buildQuery o limit =
        buildQuery { o with maximum_price_per_night := none } limit) ∧
    (o.minimum_rating = some 0 →
      buildQuery o limit =
        buildQuery { o with minimum_rating := none } limit) := by
  refine ⟨fun h => ?_, fun h => ?_, fun h => ?_, fun h => ?_, fun h => ?_⟩ <;>
    rw [buildQuery_eq_generic, buildQuery_eq_generic] <;> rw [h] <;> rfl

/-- C10 (witness): dropping a falsy `owner_id` from an options object whose
fields are all present-but-falsy leaves the assembled query unchanged. -/
theorem C10_witness :
    allFalsyOptions.owner_id = some 0 ∧
    buildQuery allFalsyOptions 10 =
      buildQuery { allFalsyOptions with owner_id := none } 10 :=
  ⟨rfl, (C10_falsy_filters_ignored allFalsyOptions 10).1 rfl⟩
